import Mathlib

/-!
Verification development for the nspanel_haui lifecycle and MQTT bridge core.

The definitions below are a shallow embedding of
`apps/nspanel_haui/haui/abstract/part.py` (class `HAUIPart`) and
`apps/nspanel_haui/haui/controller/mqtt.py` (class `HAUIMQTTController`).
Side effects (log lines, MQTT publish attempts, hook invocations, raised
exceptions) are made explicit in the return values; external collaborators
(the MQTT transport, `json.loads`, the command/event vocabularies imported
from `mapping.const`) are parameters.
-/

/-- Hook invocations performed by the lifecycle base (`start_part` /
`stop_part` overrides). -/
inductive Hook where
  | startHook
  | stopHook
  deriving DecidableEq, Repr

/-- External lifecycle operations a caller can perform on a part. -/
inductive PartOp where
  | start
  | stop
  deriving DecidableEq, Repr

/-- State of a `HAUIPart` (part.py line 21: `self._started = False`). -/
structure HAUIPart where
  started : Bool
  deriving DecidableEq, Repr

/-- Result of a `HAUIPart.start()` call: the new state, the hooks invoked,
the log lines emitted through `self.app.log`, and the exception propagated
to the caller (if the `start_part` hook raised). -/
structure StartResult where
  state : HAUIPart
  hooks : List Hook
  logs : List String
  raised : Option String
  deriving DecidableEq, Repr

/-- Embedding of `HAUIPart.start` (part.py lines 31-46).  `hookErr = some e`
models the overridden `start_part` hook raising exception `e`; `none` models
a normally returning hook.  The method logs on entry, returns early when
already started, otherwise flips `_started` to `True` BEFORE running the
hook; a hook exception is logged (message and traceback) and re-raised. -/
def HAUIPart.start (hookErr : Option String) (s : HAUIPart) : StartResult :=
  if s.started then
    { state := s
      hooks := []
      logs := ["HAUIPart.start() called, already started: true",
               "HAUIPart.start() - already started, skipping"]
      raised := none }
  else
    match hookErr with
    | none =>
      { state := { started := true }
        hooks := [Hook.startHook]
        logs := ["HAUIPart.start() called, already started: false",
                 "HAUIPart.start() - calling start_part()",
                 "HAUIPart.start() - start_part() completed"]
        raised := none }
    | some e =>
      { state := { started := true }
        hooks := [Hook.startHook]
        logs := ["HAUIPart.start() called, already started: false",
                 "HAUIPart.start() - calling start_part()",
                 "HAUIPart.start() - ERROR in start_part(): " ++ e,
                 "HAUIPart.start() - Traceback"]
        raised := some e }

/-- Embedding of `HAUIPart.stop` (part.py lines 48-53): no-op when not
started, otherwise invokes `stop_part` then clears `_started`. -/
def HAUIPart.stop (s : HAUIPart) : HAUIPart × List Hook :=
  if s.started then ({ started := false }, [Hook.stopHook]) else (s, [])

/-- Runs a sequence of `start()`/`stop()` calls (hooks returning normally)
from a given state, collecting the hook invocations in order. -/
def HAUIPart.run : List PartOp → HAUIPart → HAUIPart × List Hook
  | [], s => (s, [])
  | PartOp.start :: ops, s =>
    ((HAUIPart.run ops (HAUIPart.start none s).state).1,
     (HAUIPart.start none s).hooks ++ (HAUIPart.run ops (HAUIPart.start none s).state).2)
  | PartOp.stop :: ops, s =>
    ((HAUIPart.run ops (HAUIPart.stop s).1).1,
     (HAUIPart.stop s).2 ++ (HAUIPart.run ops (HAUIPart.stop s).1).2)

/-- A hook trace is feasible from flag value `b`: a `startHook` fires only
when stopped (and flips to started), a `stopHook` only when started.  This
is exactly "start_part once per start cycle, stop_part at most once per
stop cycle". -/
def validFrom : Bool → List Hook → Bool
  | _, [] => true
  | b, Hook.startHook :: t => !b && validFrom true t
  | b, Hook.stopHook :: t => b && validFrom false t

/-- The started flag implied by replaying a hook trace over initial flag
`b`. -/
def flagAfter : Bool → List Hook → Bool
  | b, [] => b
  | _, Hook.startHook :: t => flagAfter true t
  | _, Hook.stopHook :: t => flagAfter false t

/-- Last element of a hook trace. -/
def lastHook : List Hook → Option Hook
  | [] => none
  | [h] => some h
  | _ :: h :: t => lastHook (h :: t)

theorem lastHook_isSome (h : Hook) (t : List Hook) :
    (lastHook (h :: t)).isSome = true := by
  induction t generalizing h with
  | nil => rfl
  | cons h2 t2 ih => simpa [lastHook] using ih h2

theorem flagAfter_eq_lastHook (tr : List Hook) (b : Bool) :
    flagAfter b tr =
      (match lastHook tr with
       | some Hook.startHook => true
       | some Hook.stopHook => false
       | none => b) := by
  induction tr generalizing b with
  | nil => rfl
  | cons h t ih =>
    cases t with
    | nil => cases h <;> rfl
    | cons h2 t2 =>
      cases hxx : lastHook (h2 :: t2) with
      | none =>
        have hs := lastHook_isSome h2 t2
        simp [hxx] at hs
      | some x =>
        cases h with
        | startHook =>
          have ih1 := ih true
          rw [hxx] at ih1
          cases x <;> simp [flagAfter, lastHook, hxx, ih1]
        | stopHook =>
          have ih1 := ih false
          rw [hxx] at ih1
          cases x <;> simp [flagAfter, lastHook, hxx, ih1]

theorem HAUIPart.run_invariant (ops : List PartOp) (s : HAUIPart) :
    validFrom s.started (HAUIPart.run ops s).2 = true
    ∧ (HAUIPart.run ops s).1.started = flagAfter s.started (HAUIPart.run ops s).2 := by
  induction ops generalizing s with
  | nil => simp [HAUIPart.run, validFrom, flagAfter]
  | cons op ops ih =>
    cases op with
    | start =>
      by_cases h : s.started
      · have h2 := ih s
        simp [HAUIPart.run, HAUIPart.start, h, validFrom, flagAfter] at h2 ⊢
        exact h2
      · have h2 := ih { started := true }
        simp [HAUIPart.run, HAUIPart.start, h, validFrom, flagAfter] at h2 ⊢
        exact h2
    | stop =>
      by_cases h : s.started
      · have h2 := ih { started := false }
        simp [HAUIPart.run, HAUIPart.stop, h, validFrom, flagAfter] at h2 ⊢
        exact h2
      · have h2 := ih s
        simp [HAUIPart.run, HAUIPart.stop, h, validFrom, flagAfter] at h2 ⊢
        exact h2

/-- C1: For every sequence of `start()` and `stop()` calls on a managed part
(`HAUIPart`), the `start_part` hook executes exactly once per start cycle (a
second `start()` without an intervening `stop()` is a no-op that does not
re-invoke the hook), the `stop_part` hook executes at most once per stop
cycle (`stop()` when not started is a no-op), and the started flag is true
only between a successful `start()` and a subsequent `stop()`.  Formally:
`start` on a started part and `stop` on a stopped part change nothing and
invoke no hook; over any call sequence from the initial (stopped) state the
hook trace alternates start/stop beginning from the stopped flag
(`validFrom false`), and the flag is true exactly when the trace ends with a
`startHook` invocation. -/
theorem lifecycle_hook_discipline (ops : List PartOp) :
    (HAUIPart.start none { started := true }).hooks = []
    ∧ (HAUIPart.start none { started := true }).state = { started := true }
    ∧ HAUIPart.stop { started := false } = ({ started := false }, [])
    ∧ validFrom false (HAUIPart.run ops { started := false }).2 = true
    ∧ ((HAUIPart.run ops { started := false }).1.started = true ↔
        lastHook (HAUIPart.run ops { started := false }).2 = some Hook.startHook) := by
  refine ⟨rfl, rfl, rfl, (HAUIPart.run_invariant ops { started := false }).1, ?_⟩
  have h2 := (HAUIPart.run_invariant ops { started := false }).2
  rw [flagAfter_eq_lastHook] at h2
  rw [show ({ started := false } : HAUIPart).started = false from rfl] at h2
  rw [h2]
  cases hl : lastHook (HAUIPart.run ops { started := false }).2 with
  | none => simp
  | some x => cases x <;> simp

/-- C6: `start()` on a stopped part sets the started flag to true before
invoking the `start_part` hook, so that if the hook raises an exception the
part remains flagged started; the hook's exception is logged via the app
collaborator and then propagates unchanged to the caller (it is not
swallowed).  Formally: for every exception `e` raised by the hook, the
resulting state is flagged started, the error is logged, and `e` itself is
re-raised; a normally returning hook raises nothing. -/
theorem start_marks_before_hook_and_propagates (e : String) :
    (HAUIPart.start (some e) { started := false }).state.started = true
    ∧ (HAUIPart.start (some e) { started := false }).raised = some e
    ∧ ("HAUIPart.start() - ERROR in start_part(): " ++ e)
        ∈ (HAUIPart.start (some e) { started := false }).logs
    ∧ Hook.startHook ∈ (HAUIPart.start (some e) { started := false }).hooks
    ∧ (HAUIPart.start none { started := false }).raised = none := by
  refine ⟨rfl, rfl, ?_, ?_, rfl⟩
  · simp [HAUIPart.start]
  · simp [HAUIPart.start]

/-- JSON values as produced by Python `json.loads`: null, booleans, numbers,
strings, arrays, and objects (association lists; a duplicate key keeps the
last binding, as in Python). -/
inductive Json where
  | null
  | bool (b : Bool)
  | num (n : Int)
  | str (s : String)
  | arr (xs : List Json)
  | obj (kvs : List (String × Json))

/-- Handle state of a `threading.Timer`: scheduled and not yet elapsed,
already fired (it will not fire again), or cancelled. -/
inductive TimerHandle where
  | pending
  | fired
  | cancelled
  deriving DecidableEq, Repr

/-- One `mqtt_publish` attempt: its topic (an `Option` because the command
topic is `None` until `start_part` runs), payload, retain flag, and whether
the transport call succeeded (`ok = false` models `mqtt_publish` raising). -/
structure PubAttempt where
  topic : Option String
  payload : String
  retain : Bool
  ok : Bool
  deriving DecidableEq, Repr

/-- State of a `HAUIMQTTController` as set up by `__init__`
(mqtt.py lines 26-36): dedup memory `prev_cmd`, the three topics (all
`None` until `start_part`), the fixed status topic, and the status timer
handle. -/
structure HAUIMQTTController where
  prevCmd : Option String
  topicPfx : Option String
  topicCmd : Option String
  topicRecv : Option String
  statusTopic : String
  statusTimer : Option TimerHandle
  deriving DecidableEq, Repr

/-- Embedding of `HAUIMQTTController.__init__` (mqtt.py lines 26-36). -/
def mqtt_init : HAUIMQTTController :=
  { prevCmd := none
    topicPfx := none
    topicCmd := none
    topicRecv := none
    statusTopic := "nspanel_haui/status"
    statusTimer := none }

/-- JSON string escaping for the two characters relevant to
`json.dumps` of the command records built in `send_cmd` (backslash and
double quote; control characters do not occur in the claims and are left
unescaped in this model). -/
def json_escape_char (c : Char) : String :=
  if c = '\\' then "\\\\"
  else if c = '"' then "\\\""
  else String.singleton c

/-- Quotes a string as JSON. -/
def json_quote (s : String) : String :=
  "\"" ++ String.join (s.data.map json_escape_char) ++ "\""

/-- Embedding of `json.dumps(\x7b"name": cmd, "value": value\x7d)` as used in
`send_cmd` (mqtt.py line 118), with Python's default separators. -/
def json_dumps_name_value (name value : String) : String :=
  "\x7b\"name\": " ++ json_quote name ++ ", \"value\": " ++ json_quote value ++ "\x7d"

/-- Whether a string's last character is the separator "/". -/
def ends_with_slash (s : String) : Bool :=
  match s.data.getLast? with
  | some c => c = '/'
  | none => false

/-- Topic prefix derivation from the instance name (mqtt.py lines 45-47):
`"nspanel_haui/" + name`, with one trailing "/" stripped
(`self._topic_prefix[:-1]`) when present. -/
def topic_root (name : String) : String :=
  let p := "nspanel_haui/" ++ name
  if ends_with_slash p then String.mk p.data.dropLast else p

/-- Embedding of `_publish_status` (mqtt.py lines 72-83): one retained
publish attempt on the status topic; a transport failure (`pubOk = false`)
is caught and logged, never propagated, and the state is untouched. -/
def HAUIMQTTController.publish_status (pubOk : Bool) (status : String)
    (s : HAUIMQTTController) : HAUIMQTTController × List PubAttempt × List String :=
  (s,
   [{ topic := some s.statusTopic, payload := status, retain := true, ok := pubOk }],
   if pubOk then
     ["Publishing AppDaemon status " ++ status,
      "Successfully published status " ++ status]
   else
     ["Publishing AppDaemon status " ++ status,
      "ERROR publishing status"])

/-- Embedding of `_start_status_timer` (mqtt.py lines 85-91): a no-op
whenever `_status_timer` is not `None` — note this includes a stale handle
of an already-fired timer; otherwise schedules a new pending timer. -/
def HAUIMQTTController.start_status_timer (s : HAUIMQTTController) : HAUIMQTTController :=
  match s.statusTimer with
  | some _ => s
  | none => { s with statusTimer := some TimerHandle.pending }

/-- Embedding of `_stop_status_timer` (mqtt.py lines 93-97): cancels the
held handle (harmless on an already-fired timer) and clears the field. -/
def HAUIMQTTController.stop_status_timer (s : HAUIMQTTController) : HAUIMQTTController :=
  match s.statusTimer with
  | some _ => { s with statusTimer := none }
  | none => s

/-- Embedding of `_status_timer_callback` (mqtt.py lines 99-103): republish
"online", then call `_start_status_timer`. -/
def HAUIMQTTController.status_timer_callback (pubOk : Bool)
    (s : HAUIMQTTController) : HAUIMQTTController × List PubAttempt × List String :=
  let r := HAUIMQTTController.publish_status pubOk "online" s
  (HAUIMQTTController.start_status_timer r.1, r.2.1, r.2.2)

/-- The elapsing of a scheduled `threading.Timer(30.0, ...)`: only a
pending handle can fire; firing marks the handle as fired (the field still
references it) and then runs `_status_timer_callback`. -/
def HAUIMQTTController.timer_fire (pubOk : Bool)
    (s : HAUIMQTTController) : HAUIMQTTController × List PubAttempt × List String :=
  if s.statusTimer = some TimerHandle.pending then
    HAUIMQTTController.status_timer_callback pubOk
      { s with statusTimer := some TimerHandle.fired }
  else
    (s, [], [])

/-- Embedding of `HAUIMQTTController.start_part` (mqtt.py lines 40-63):
derives the three topics from `self.app.name`, publishes "online" on the
status topic, and starts the status timer.  The trailing
`mqtt_subscribe`/`listen_event` calls register the inbound callback on
`_topic_recv` and carry no further state. -/
def HAUIMQTTController.start_part (pubOk : Bool) (appName : String)
    (s : HAUIMQTTController) : HAUIMQTTController × List PubAttempt × List String :=
  let pfx := topic_root appName
  let s1 := { s with topicPfx := some pfx
                     topicCmd := some (pfx ++ "/cmd")
                     topicRecv := some (pfx ++ "/recv") }
  let r := HAUIMQTTController.publish_status pubOk "online" s1
  (HAUIMQTTController.start_status_timer r.1, r.2.1,
   ("Using MQTT topic prefix: " ++ pfx) :: r.2.2)

/-- Embedding of `HAUIMQTTController.stop_part` (mqtt.py lines 65-70):
stops the status timer, then publishes "offline". -/
def HAUIMQTTController.stop_part (pubOk : Bool)
    (s : HAUIMQTTController) : HAUIMQTTController × List PubAttempt × List String :=
  HAUIMQTTController.publish_status pubOk "offline"
    (HAUIMQTTController.stop_status_timer s)

/-- Result of a `send_cmd` invocation: the new controller state, the publish
attempts made, the log lines, and whether an uncaught transport exception
propagated to the caller. -/
structure SendResult where
  state : HAUIMQTTController
  pubs : List PubAttempt
  logs : List String
  raised : Bool
  deriving DecidableEq, Repr

/-- Embedding of `HAUIMQTTController.send_cmd` (mqtt.py lines 107-123).
`allCmd` is the `ALL_CMD` vocabulary imported from `mapping.const` (a
module outside the controller; behavior is uniform in its contents, so it
is a parameter).  `pubOk = false` models `mqtt_publish` raising; the
exception is not caught, so the trailing `self.prev_cmd = cmd` assignment
is skipped and the exception propagates. -/
def HAUIMQTTController.send_cmd (allCmd : List String) (pubOk : Bool)
    (cmd value : String) (force : Bool) (s : HAUIMQTTController) : SendResult :=
  let logs0 :=
    if cmd ∈ allCmd then ([] : List String)
    else ["Unknown command " ++ cmd ++ " received. content: " ++ value]
  let record := json_dumps_name_value cmd value
  if force = false ∧ s.prevCmd = some record then
    { state := s
      pubs := []
      logs := logs0 ++ ["Dropping identical consecutive message: " ++ record]
      raised := false }
  else if pubOk then
    { state := { s with prevCmd := some record }
      pubs := [{ topic := s.topicCmd, payload := record, retain := false, ok := true }]
      logs := logs0
      raised := false }
  else
    { state := s
      pubs := [{ topic := s.topicCmd, payload := record, retain := false, ok := false }]
      logs := logs0
      raised := true }

/-- The event object constructed from a decoded inbound payload
(`HAUIEvent(name, value)`, from `abstract/event.py`): the two fields are
whatever Python values the decoded JSON object held. -/
structure HAUIEvent where
  name : Json
  value : Json

/-- Outcome of a `callback_event` invocation: nothing forwarded, exactly
one event forwarded to the registered `_event_callback`, or an uncaught
Python exception raised to the caller. -/
inductive CbOutcome where
  | noEvent
  | forwarded (e : HAUIEvent)
  | raised

/-- Result of a `callback_event` invocation. -/
structure CbResult where
  outcome : CbOutcome
  logs : List String

/-- Python `dict.get(k, d)` on the association list of a decoded JSON
object: the last binding of a duplicated key wins, as in `json.loads`. -/
def dict_get (kvs : List (String × Json)) (k : String) (d : Json) : Json :=
  match kvs.reverse.find? (fun p => p.1 == k) with
  | some p => p.2
  | none => d

/-- Python `name not in ALL_RECV` for a decoded `name` of arbitrary JSON
shape compared against a vocabulary of strings: only an equal string is a
member. -/
def known_name (name : Json) (allRecv : List String) : Bool :=
  match name with
  | Json.str s => allRecv.contains s
  | _ => false

/-- Embedding of `HAUIMQTTController.callback_event` (mqtt.py lines
125-158).  `allRecv` is the `ALL_RECV` vocabulary from `mapping.const`
(parameter, as for `send_cmd`); `parse` is Python `json.loads`, returning
`none` when it raises (the `try` block catches exactly that).  A payload
that decodes to a non-object (`null`, bool, number, string, array) reaches
`event.get(...)`, which raises `AttributeError` outside any `try` block
and propagates to the caller. -/
def HAUIMQTTController.callback_event (allRecv : List String)
    (parse : String → Option Json) (event_name topic payload : String) : CbResult :=
  if event_name ≠ "MQTT_MESSAGE" then
    { outcome := CbOutcome.noEvent, logs := [] }
  else
    let logs0 :=
      ["MQTT message received - Topic: " ++ topic ++ ", Payload: " ++ payload.take 200]
    if payload = "" then
      { outcome := CbOutcome.noEvent, logs := logs0 }
    else
      match parse payload with
      | none =>
        { outcome := CbOutcome.noEvent, logs := logs0 ++ ["Got invalid json"] }
      | some (Json.obj kvs) =>
        let name := dict_get kvs "name" (Json.str "unknown")
        let value := dict_get kvs "value" (Json.str "")
        let logs1 := logs0 ++ ["Parsed MQTT event"]
        let logs2 :=
          if known_name name allRecv then logs1
          else logs1 ++ ["Unknown message received"]
        { outcome := CbOutcome.forwarded { name := name, value := value }, logs := logs2 }
      | some _ =>
        { outcome := CbOutcome.raised, logs := logs0 }

/-- The four-call scenario of C2, starting from a fresh channel:
`send("A","1")`. -/
def scenario_send1 : SendResult :=
  HAUIMQTTController.send_cmd ["A"] true "A" "1" false mqtt_init

/-- Second call of the C2 scenario: `send("A","1")` again. -/
def scenario_send2 : SendResult :=
  HAUIMQTTController.send_cmd ["A"] true "A" "1" false scenario_send1.state

/-- Third call of the C2 scenario: `send("A","1", force=true)`. -/
def scenario_send3 : SendResult :=
  HAUIMQTTController.send_cmd ["A"] true "A" "1" true scenario_send2.state

/-- Fourth call of the C2 scenario: `send("A","2")`. -/
def scenario_send4 : SendResult :=
  HAUIMQTTController.send_cmd ["A"] true "A" "2" false scenario_send3.state

/-- C2: For every invocation of `send_cmd(cmd, value, force)`, at most one
transport publish occurs; the publish is skipped (and the suppression
logged) if and only if `force` is false and the serialized record equals
the previously remembered record; a `cmd` name outside the known-command
vocabulary is logged as a warning but the command is still sent (the
publish attempts are independent of the vocabulary).  In the scenario
`send("A","1")`, `send("A","1")`, `send("A","1", force=true)`,
`send("A","2")` from a fresh channel, exactly the 1st, 3rd and 4th calls
transmit and the 2nd is suppressed. -/
theorem send_cmd_dedup_spec (allCmd : List String) (pubOk : Bool)
    (cmd value : String) (force : Bool) (s : HAUIMQTTController) :
    (HAUIMQTTController.send_cmd allCmd pubOk cmd value force s).pubs.length ≤ 1
    ∧ ((HAUIMQTTController.send_cmd allCmd pubOk cmd value force s).pubs = [] ↔
        (force = false ∧ s.prevCmd = some (json_dumps_name_value cmd value)))
    ∧ (force = false → s.prevCmd = some (json_dumps_name_value cmd value) →
        ("Dropping identical consecutive message: " ++ json_dumps_name_value cmd value)
          ∈ (HAUIMQTTController.send_cmd allCmd pubOk cmd value force s).logs)
    ∧ (cmd ∉ allCmd →
        ("Unknown command " ++ cmd ++ " received. content: " ++ value)
          ∈ (HAUIMQTTController.send_cmd allCmd pubOk cmd value force s).logs)
    ∧ (HAUIMQTTController.send_cmd allCmd pubOk cmd value force s).pubs
        = (HAUIMQTTController.send_cmd [] pubOk cmd value force s).pubs
    ∧ scenario_send1.pubs.length = 1
    ∧ scenario_send2.pubs = []
    ∧ scenario_send3.pubs.length = 1
    ∧ scenario_send4.pubs.length = 1 := by
  refine ⟨?_, ?_, ?_, ?_, ?_, by decide, by decide, by decide, by decide⟩
  · by_cases hc : force = false ∧ s.prevCmd = some (json_dumps_name_value cmd value)
    · simp [HAUIMQTTController.send_cmd, hc]
    · by_cases hp : pubOk <;> simp [HAUIMQTTController.send_cmd, hc, hp]
  · by_cases hc : force = false ∧ s.prevCmd = some (json_dumps_name_value cmd value)
    · simp [HAUIMQTTController.send_cmd, hc]
    · by_cases hp : pubOk <;> simp [HAUIMQTTController.send_cmd, hc, hp]
  · intro hf hv
    simp [HAUIMQTTController.send_cmd, hf, hv]
  · intro hm
    by_cases hc : force = false ∧ s.prevCmd = some (json_dumps_name_value cmd value)
    · simp [HAUIMQTTController.send_cmd, hc, hm]
    · by_cases hp : pubOk <;> simp [HAUIMQTTController.send_cmd, hc, hp, hm]
  · by_cases hc : force = false ∧ s.prevCmd = some (json_dumps_name_value cmd value)
    · simp [HAUIMQTTController.send_cmd, hc]
    · by_cases hp : pubOk <;> simp [HAUIMQTTController.send_cmd, hc, hp]

/-- Witness for C2 at concrete inputs, discharging the implication
hypotheses: the suppression log fires on a repeated record with
`force = false`, and the unknown-command warning fires for a command
outside the vocabulary. -/
theorem send_cmd_dedup_spec_witness :
    ("Dropping identical consecutive message: " ++ json_dumps_name_value "A" "1")
      ∈ (HAUIMQTTController.send_cmd ["A"] true "A" "1" false scenario_send1.state).logs
    ∧ ("Unknown command " ++ "B" ++ " received. content: " ++ "1")
      ∈ (HAUIMQTTController.send_cmd ["A"] true "B" "1" false mqtt_init).logs := by
  refine ⟨(send_cmd_dedup_spec ["A"] true "A" "1" false scenario_send1.state).2.2.1
            rfl (by decide), ?_⟩
  exact (send_cmd_dedup_spec ["A"] true "B" "1" false mqtt_init).2.2.2.1 (by decide)

/-- C5: Topic derivation at start: for every instance name, the prefix is
`"nspanel_haui/" ++ name` with a trailing "/" separator stripped (one
character, mirroring `[:-1]`), the command topic is `prefix ++ "/cmd"`,
the receive topic is `prefix ++ "/recv"`, and the status topic is the
fixed instance-independent `"nspanel_haui/status"` (set in `__init__` and
untouched by `start_part`); in particular instance name `"living_room/"`
yields prefix `"nspanel_haui/living_room"` and command topic
`"nspanel_haui/living_room/cmd"`. -/
theorem topic_derivation_spec (name : String) (pubOk : Bool) (s : HAUIMQTTController) :
    (HAUIMQTTController.start_part pubOk name s).1.topicPfx = some (topic_root name)
    ∧ (HAUIMQTTController.start_part pubOk name s).1.topicCmd
        = some (topic_root name ++ "/cmd")
    ∧ (HAUIMQTTController.start_part pubOk name s).1.topicRecv
        = some (topic_root name ++ "/recv")
    ∧ (HAUIMQTTController.start_part pubOk name s).1.statusTopic = s.statusTopic
    ∧ mqtt_init.statusTopic = "nspanel_haui/status"
    ∧ (ends_with_slash ("nspanel_haui/" ++ name) = true →
        topic_root name = String.mk ("nspanel_haui/" ++ name).data.dropLast)
    ∧ (ends_with_slash ("nspanel_haui/" ++ name) = false →
        topic_root name = "nspanel_haui/" ++ name)
    ∧ topic_root "living_room/" = "nspanel_haui/living_room"
    ∧ topic_root "living_room" ++ "/cmd" = "nspanel_haui/living_room/cmd" := by
  refine ⟨?_, ?_, ?_, ?_, rfl, ?_, ?_, by decide, by decide⟩
  · simp [HAUIMQTTController.start_part, HAUIMQTTController.publish_status,
          HAUIMQTTController.start_status_timer]
    cases h : s.statusTimer <;> simp
  · simp [HAUIMQTTController.start_part, HAUIMQTTController.publish_status,
          HAUIMQTTController.start_status_timer]
    cases h : s.statusTimer <;> simp
  · simp [HAUIMQTTController.start_part, HAUIMQTTController.publish_status,
          HAUIMQTTController.start_status_timer]
    cases h : s.statusTimer <;> simp
  · simp [HAUIMQTTController.start_part, HAUIMQTTController.publish_status,
          HAUIMQTTController.start_status_timer]
    cases h : s.statusTimer <;> simp
  · intro h
    simp [topic_root, h]
  · intro h
    simp [topic_root, h]

/-- Witness for C5 at concrete inputs, discharging the two stripping
hypotheses: `"living_room/"` takes the endswith branch and
`"living_room"` the other. -/
theorem topic_derivation_spec_witness :
    topic_root "living_room/" = String.mk ("nspanel_haui/" ++ "living_room/").data.dropLast
    ∧ topic_root "living_room" = "nspanel_haui/" ++ "living_room" := by
  refine ⟨(topic_derivation_spec "living_room/" true mqtt_init).2.2.2.2.2.1 (by decide),
          (topic_derivation_spec "living_room" true mqtt_init).2.2.2.2.2.2.1 (by decide)⟩

/-- C10: If `send_cmd` is invoked before `start()` has ever run (a freshly
constructed controller, `mqtt_init`), the channel does not reject or guard
the call: for all arguments it performs exactly one transport publish whose
topic is the still-unconfigured command topic (`none`), since topics are
only assigned inside `start_part` and `send_cmd` has no precondition
check. -/
theorem send_cmd_unstarted_topic_none (allCmd : List String) (pubOk : Bool)
    (cmd value : String) (force : Bool) :
    (HAUIMQTTController.send_cmd allCmd pubOk cmd value force mqtt_init).pubs
      = [{ topic := none, payload := json_dumps_name_value cmd value,
           retain := false, ok := pubOk }] := by
  have hc : ¬ (force = false ∧ mqtt_init.prevCmd = some (json_dumps_name_value cmd value)) := by
    intro h
    exact Option.noConfusion (show (none : Option String) = some _ from h.2)
  by_cases hp : pubOk <;> simp [HAUIMQTTController.send_cmd, hc, hp, mqtt_init]

/-- Counterexample to C7: on a fresh channel, `send_cmd("A","1")` with a
failing transport publish (`mqtt_publish` raising is modelled with
`pubOk = false`) reaches the dedup comparison, but the exception
propagates before the `self.prev_cmd = cmd` assignment on mqtt.py line 123
runs, so `prev_cmd` is NOT left equal to the serialized record of the
call — refuting "regardless of the transmission outcome". -/
theorem send_cmd_prev_after_publish_failure_cx :
    (HAUIMQTTController.send_cmd [] false "A" "1" false mqtt_init).raised = true
    ∧ (HAUIMQTTController.send_cmd [] false "A" "1" false mqtt_init).state.prevCmd
        ≠ some (json_dumps_name_value "A" "1")
    ∧ (HAUIMQTTController.send_cmd [] false "A" "1" false mqtt_init).state.prevCmd
        = none := by
  refine ⟨by decide, by decide, by decide⟩

/-- C7 as amended: every `send_cmd` call that reaches the dedup comparison
step and completes without a transport exception leaves the dedup memory
`prev_cmd` equal to the serialized record of that call (a suppressed call
already satisfies this, since suppression requires `prev_cmd` to equal the
record); if the transport publish raises, the exception propagates and the
controller state — `prev_cmd` included — is left unchanged. -/
theorem send_cmd_prev_update_amended (allCmd : List String) (pubOk : Bool)
    (cmd value : String) (force : Bool) (s : HAUIMQTTController) :
    ((HAUIMQTTController.send_cmd allCmd pubOk cmd value force s).raised = false →
      (HAUIMQTTController.send_cmd allCmd pubOk cmd value force s).state.prevCmd
        = some (json_dumps_name_value cmd value))
    ∧ ((HAUIMQTTController.send_cmd allCmd pubOk cmd value force s).raised = true →
        (HAUIMQTTController.send_cmd allCmd pubOk cmd value force s).state = s) := by
  constructor
  · intro hr
    by_cases hc : force = false ∧ s.prevCmd = some (json_dumps_name_value cmd value)
    · simp [HAUIMQTTController.send_cmd, hc]
    · by_cases hp : pubOk
      · simp [HAUIMQTTController.send_cmd, hc, hp]
      · simp [HAUIMQTTController.send_cmd, hc, hp] at hr
  · intro hr
    by_cases hc : force = false ∧ s.prevCmd = some (json_dumps_name_value cmd value)
    · simp [HAUIMQTTController.send_cmd, hc]
    · by_cases hp : pubOk
      · simp [HAUIMQTTController.send_cmd, hc, hp] at hr
      · simp [HAUIMQTTController.send_cmd, hc, hp]

/-- Witness for the amended C7 at concrete inputs: a successful fresh-state
publish records the serialized command, and a failing publish leaves the
fresh state untouched. -/
theorem send_cmd_prev_update_amended_witness :
    (HAUIMQTTController.send_cmd [] true "A" "1" false mqtt_init).state.prevCmd
      = some (json_dumps_name_value "A" "1")
    ∧ (HAUIMQTTController.send_cmd [] false "A" "1" false mqtt_init).state = mqtt_init := by
  refine ⟨(send_cmd_prev_update_amended [] true "A" "1" false mqtt_init).1 (by decide),
          (send_cmd_prev_update_amended [] false "A" "1" false mqtt_init).2 (by decide)⟩

/-- C3: The inbound decode path satisfies, for every delivered payload: an
empty payload yields no event; a payload that is not valid JSON yields no
event and is logged; a decoded JSON object missing the `name` field gets
`name` defaulted to the sentinel `"unknown"` and a missing `value` field
the empty string; and a well-formed payload decoding to
`\x7b"name":"X","value":"Y"\x7d` yields exactly one
`Event(name="X", value="Y")` forwarded to the registered handler even when
the name is outside the known-event vocabulary (unknown names are logged
but never dropped — the forwarded event does not depend on the
vocabulary). -/
theorem callback_event_decode_spec (allRecv : List String)
    (parse : String → Option Json) (topic payload : String) :
    (HAUIMQTTController.callback_event allRecv parse "MQTT_MESSAGE" topic "").outcome
      = CbOutcome.noEvent
    ∧ (payload ≠ "" → parse payload = none →
        (HAUIMQTTController.callback_event allRecv parse "MQTT_MESSAGE" topic payload).outcome
          = CbOutcome.noEvent
        ∧ "Got invalid json"
            ∈ (HAUIMQTTController.callback_event allRecv parse "MQTT_MESSAGE" topic payload).logs)
    ∧ (∀ kvs, payload ≠ "" → parse payload = some (Json.obj kvs) →
        (HAUIMQTTController.callback_event allRecv parse "MQTT_MESSAGE" topic payload).outcome
          = CbOutcome.forwarded
              { name := dict_get kvs "name" (Json.str "unknown")
                value := dict_get kvs "value" (Json.str "") })
    ∧ (payload ≠ "" → parse payload = some (Json.obj []) →
        (HAUIMQTTController.callback_event allRecv parse "MQTT_MESSAGE" topic payload).outcome
          = CbOutcome.forwarded { name := Json.str "unknown", value := Json.str "" })
    ∧ (payload ≠ "" →
        parse payload = some (Json.obj [("name", Json.str "X"), ("value", Json.str "Y")]) →
        (HAUIMQTTController.callback_event allRecv parse "MQTT_MESSAGE" topic payload).outcome
          = CbOutcome.forwarded { name := Json.str "X", value := Json.str "Y" }
        ∧ (known_name (Json.str "X") allRecv = false →
            "Unknown message received"
              ∈ (HAUIMQTTController.callback_event allRecv parse "MQTT_MESSAGE" topic payload).logs)) := by
  refine ⟨rfl, ?_, ?_, ?_, ?_⟩
  · intro hp hn
    simp [HAUIMQTTController.callback_event, hp, hn]
  · intro kvs hp hn
    simp [HAUIMQTTController.callback_event, hp, hn]
  · intro hp hn
    simp [HAUIMQTTController.callback_event, hp, hn, dict_get]
  · intro hp hn
    refine ⟨by simp [HAUIMQTTController.callback_event, hp, hn, dict_get], ?_⟩
    intro hk
    simp [HAUIMQTTController.callback_event, hp, hn, dict_get, hk]

/-- A concrete stand-in for `json.loads` used by the C3 witness: it decodes
the payload `"xy"` to the object `\x7b"name":"X","value":"Y"\x7d`, the
payload `"eo"` to the empty object, and everything else to a decode
failure. -/
def parse_demo : String → Option Json := fun s =>
  if s = "xy" then some (Json.obj [("name", Json.str "X"), ("value", Json.str "Y")])
  else if s = "eo" then some (Json.obj [])
  else none

/-- Witness for C3 at concrete inputs: `"not-json"` fails decoding and
yields no event; the empty object defaults both fields; the well-formed
payload is forwarded even with an empty vocabulary, with the
unknown-message warning logged. -/
theorem callback_event_decode_spec_witness :
    (HAUIMQTTController.callback_event [] parse_demo "MQTT_MESSAGE" "t" "not-json").outcome
      = CbOutcome.noEvent
    ∧ (HAUIMQTTController.callback_event [] parse_demo "MQTT_MESSAGE" "t" "eo").outcome
        = CbOutcome.forwarded { name := Json.str "unknown", value := Json.str "" }
    ∧ (HAUIMQTTController.callback_event [] parse_demo "MQTT_MESSAGE" "t" "xy").outcome
        = CbOutcome.forwarded { name := Json.str "X", value := Json.str "Y" }
    ∧ "Unknown message received"
        ∈ (HAUIMQTTController.callback_event [] parse_demo "MQTT_MESSAGE" "t" "xy").logs := by
  refine ⟨((callback_event_decode_spec [] parse_demo "t" "not-json").2.1
            (by decide) (by simp [parse_demo])).1,
          (callback_event_decode_spec [] parse_demo "t" "eo").2.2.2.1
            (by decide) (by simp [parse_demo]),
          ((callback_event_decode_spec [] parse_demo "t" "xy").2.2.2.2
            (by decide) (by simp [parse_demo])).1,
          ((callback_event_decode_spec [] parse_demo "t" "xy").2.2.2.2
            (by decide) (by simp [parse_demo])).2 (by decide)⟩

/-- A concrete stand-in for `json.loads` used for C8: the payload `"42"`
is valid JSON and decodes to the number 42 — not an object. -/
def parse_num : String → Option Json := fun s =>
  if s = "42" then some (Json.num 42) else none

/-- C8 evaluated at its failing input: the claim says `callback_event`
never raises for any payload, but a payload that is valid JSON yet not an
object — here `"42"` — passes the `try json.loads` block and then hits
`event.get("name", "unknown")` on a Python int, which raises
`AttributeError` outside any `try` and propagates to the caller. -/
theorem callback_event_nonobject_raises :
    (HAUIMQTTController.callback_event [] parse_num "MQTT_MESSAGE" "t" "42").outcome
      = CbOutcome.raised := rfl

/-- C4 evaluated at its failing input: `start_part` immediately publishes
`("nspanel_haui/status", "online")` retained and schedules the status
timer, `stop_part` cancels any pending timer and publishes a retained
"offline", and a failed status publish is caught (the controller state and
timer are unaffected) — but when the 30-second timer fires, the callback's
`_start_status_timer()` call finds `self._status_timer` still holding the
already-fired `threading.Timer` object and returns without scheduling, so
the timer is NEVER rescheduled: after one firing no pending timer remains
and a further firing does nothing, contradicting the claimed (and
code-commented) "republish every 30 seconds" behavior. -/
theorem status_timer_not_rescheduled :
    (HAUIMQTTController.start_part true "living_room" mqtt_init).2.1
      = [{ topic := some "nspanel_haui/status", payload := "online", retain := true, ok := true }]
    ∧ (HAUIMQTTController.start_part true "living_room" mqtt_init).1.statusTimer
        = some TimerHandle.pending
    ∧ (HAUIMQTTController.timer_fire true
        (HAUIMQTTController.start_part true "living_room" mqtt_init).1).2.1
      = [{ topic := some "nspanel_haui/status", payload := "online", retain := true, ok := true }]
    ∧ (HAUIMQTTController.timer_fire true
        (HAUIMQTTController.start_part true "living_room" mqtt_init).1).1.statusTimer
      = some TimerHandle.fired
    ∧ (HAUIMQTTController.timer_fire true
        (HAUIMQTTController.timer_fire true
          (HAUIMQTTController.start_part true "living_room" mqtt_init).1).1).2.1
      = []
    ∧ (HAUIMQTTController.stop_part true
        (HAUIMQTTController.timer_fire true
          (HAUIMQTTController.start_part true "living_room" mqtt_init).1).1).2.1
      = [{ topic := some "nspanel_haui/status", payload := "offline", retain := true, ok := true }]
    ∧ (HAUIMQTTController.stop_part true
        (HAUIMQTTController.timer_fire true
          (HAUIMQTTController.start_part true "living_room" mqtt_init).1).1).1.statusTimer
      = none
    ∧ (HAUIMQTTController.start_part false "living_room" mqtt_init).1.statusTimer
        = some TimerHandle.pending := by
  refine ⟨by decide, by decide, by decide, by decide, by decide, by decide, by decide, by decide⟩

/-- The environment from which `start_part` obtains the instance name:
the owning application's name attribute (`none` models the primary name
being unavailable) and a device-reported name. -/
structure NameEnv where
  appName : Option String
  deviceName : Option String

/-- Name resolution as the source performs it (mqtt.py line 44:
`name = self.app.name`, then f-string interpolation into the topic on line
45): the application's name attribute alone is consulted; an unavailable
(Python `None`) name is interpolated by the f-string as the string
"None". -/
def resolve_instance_name (env : NameEnv) : String :=
  match env.appName with
  | some n => n
  | none => "None"

/-- Modelled from the spec: the three-tier fallback chain of §4.4 / §7 —
"resolves the instance name from the owning application context (falling
back to a device-reported name, then a hard-coded default, if the primary
name is unavailable)".  This chain does not appear in the source under
src/; it is written out here only to be compared against
`resolve_instance_name`. -/
def resolve_instance_name_spec (env : NameEnv) (dflt : String) : String :=
  match env.appName with
  | some n => n
  | none =>
    match env.deviceName with
    | some d => d
    | none => dflt

/-- Counterexample to C9: with the primary name unavailable and a
device-reported name "panel42" present, the three-tier chain of the claim
resolves to "panel42", but the code consults only `self.app.name` and
derives the topic prefix "nspanel_haui/None" — no second or third tier is
ever consulted. -/
theorem instance_name_single_tier_cx :
    resolve_instance_name { appName := none, deviceName := some "panel42" }
      ≠ resolve_instance_name_spec { appName := none, deviceName := some "panel42" } "nspanel"
    ∧ (HAUIMQTTController.start_part true
        (resolve_instance_name { appName := none, deviceName := some "panel42" })
        mqtt_init).1.topicPfx = some "nspanel_haui/None" := by
  refine ⟨by decide, by decide⟩

/-- C9 as amended: at start, the controller resolves the instance name
solely from the owning application's name attribute (tier one); the
resolution is insensitive to any device-reported name, and there is no
fallback tier — an unavailable application name flows into the topic
prefix through string interpolation rather than triggering a fallback. -/
theorem instance_name_single_tier (a : Option String) (d d' : Option String)
    (pubOk : Bool) (s : HAUIMQTTController) :
    resolve_instance_name { appName := a, deviceName := d }
      = resolve_instance_name { appName := a, deviceName := d' }
    ∧ (HAUIMQTTController.start_part pubOk
        (resolve_instance_name { appName := a, deviceName := d }) s).1.topicPfx
      = some (topic_root (resolve_instance_name { appName := a, deviceName := d })) := by
  refine ⟨rfl, ?_⟩
  simp [HAUIMQTTController.start_part, HAUIMQTTController.publish_status,
        HAUIMQTTController.start_status_timer]
  cases h : s.statusTimer <;> simp
